import Mathlib

/-!
Shallow embedding of the website-recreation core of the `cli-ai-toolkit`
repository:

* `PixelDiffService.compareImages` and its helpers
  (`src/packages/feedback/src/PixelDiffService.ts`, provided as
  `src/unnamed/part_012`), together with the relevant behaviour of the
  `pixelmatch` library it calls;
* the iterative recreation controller
  `WebsiteRecreationService.recreateWebsite` and
  `formatCritiqueForRevision`
  (`src/packages/agent/src/WebsiteRecreationService.ts`).

JavaScript numbers are modelled as exact rationals (`ℚ`); all arithmetic in
the embedded code is simple enough (division, comparison, rounding to two
decimal places) that the rational model is faithful for the inputs the
claims quantify over.  Asynchronous collaborator calls (screenshotter,
HTML generator, vision judge, critique generator) are modelled as oracles
returning `Except String α`: `.error` models a thrown exception, and the
oracles take the 1-based iteration number so that a single run can observe
different collaborator answers on different iterations.
-/

namespace CliAiToolkit

/-! ## Pixels and images -/

/-- One RGBA pixel as decoded by `pngjs` (each channel a byte `0..255`). -/
structure RGBA where
  r : ℕ
  g : ℕ
  b : ℕ
  a : ℕ
deriving DecidableEq

/-- A decoded PNG: the `width`/`height` fields and the flattened pixel
buffer (`data`), listed row-major as in the `pngjs` `PNG` object. -/
structure Image where
  width : ℕ
  height : ℕ
  data : List RGBA
deriving DecidableEq

/-! ## The `pixelmatch` dependency

`PixelDiffService.compareImages` delegates per-pixel classification to the
`pixelmatch` npm library (v5).  The definitions below model the parts of
that library the service exercises.  The service calls it with
`includeAA: true`, so the anti-aliasing detection branch
(`!options.includeAA && antialiased(...)`) is dead and a pixel is counted
as a mismatch exactly when `|colorDelta| > maxDelta`; the diff-image pixel
painting has no bearing on any claim and is not modelled. -/

/-- Pixelmatch's `blend(c, a) = 255 + (c - 255) * a`. -/
def blend (c a : ℚ) : ℚ := 255 + (c - 255) * a

/-- Pixelmatch's `rgb2y`. -/
def rgb2y (r g b : ℚ) : ℚ := r * 0.29889531 + g * 0.58662247 + b * 0.11448223

/-- Pixelmatch's `rgb2i`. -/
def rgb2i (r g b : ℚ) : ℚ := r * 0.59597799 - g * 0.27417610 - b * 0.32180189

/-- Pixelmatch's `rgb2q`. -/
def rgb2q (r g b : ℚ) : ℚ := r * 0.21147017 - g * 0.52261711 + b * 0.31114694

/-- Pixelmatch's `colorDelta` (with `yOnly = false`, the only way the
counting loop calls it): squared YIQ distance, `0` for identical pixels,
negated when the first pixel is lighter. -/
def colorDelta (p1 p2 : RGBA) : ℚ :=
  if p1 = p2 then 0
  else
    let c1 : ℚ × ℚ × ℚ :=
      if p1.a < 255 then
        (blend p1.r (p1.a / 255), blend p1.g (p1.a / 255), blend p1.b (p1.a / 255))
      else ((p1.r : ℚ), (p1.g : ℚ), (p1.b : ℚ))
    let c2 : ℚ × ℚ × ℚ :=
      if p2.a < 255 then
        (blend p2.r (p2.a / 255), blend p2.g (p2.a / 255), blend p2.b (p2.a / 255))
      else ((p2.r : ℚ), (p2.g : ℚ), (p2.b : ℚ))
    let y1 := rgb2y c1.1 c1.2.1 c1.2.2
    let y2 := rgb2y c2.1 c2.2.1 c2.2.2
    let i := rgb2i c1.1 c1.2.1 c1.2.2 - rgb2i c2.1 c2.2.1 c2.2.2
    let q := rgb2q c1.1 c1.2.1 c1.2.2 - rgb2q c2.1 c2.2.1 c2.2.2
    let delta := 0.5053 * (y1 - y2) * (y1 - y2) + 0.299 * i * i + 0.1957 * q * q
    if y1 > y2 then -delta else delta

/-- The number of mismatching pixels reported by
`pixelmatch(img1, img2, output, width, height, {threshold, includeAA: true, ...})`:
with anti-aliasing detection disabled by `includeAA: true`, position `k`
counts exactly when `|colorDelta| > maxDelta` with
`maxDelta = 35215 * threshold ^ 2`. -/
def pixelmatchCount (data1 data2 : List RGBA) (threshold : ℚ) : ℕ :=
  let maxDelta := 35215 * threshold * threshold
  List.countP (fun pq => decide (|colorDelta pq.1 pq.2| > maxDelta)) (List.zip data1 data2)

/-! ## `PixelDiffService` (`src/unnamed/part_012`) -/

/-- Constructor argument of `PixelDiffService` (all fields optional). -/
structure PixelDiffConfig where
  passThreshold : Option ℚ := none
  diffOutputDir : Option String := none

/-- The resolved `this.config` after the constructor applied the `??` defaults. -/
structure ResolvedPixelDiffConfig where
  passThreshold : ℚ
  diffOutputDir : String
deriving DecidableEq

/-- The `??` defaulting in the `PixelDiffService` constructor. -/
def resolvePixelDiffConfig (c : PixelDiffConfig) : ResolvedPixelDiffConfig :=
  { passThreshold := c.passThreshold.getD 92
    diffOutputDir := c.diffOutputDir.getD "images/diffs" }

/-- The result object returned by `compareImages`. -/
structure PixelDiffResult where
  pass : Bool
  score : ℚ
  mismatchPercent : ℚ
  mismatchPixels : ℕ
  totalPixels : ℕ
  notes : String
  diffImagePath : String
deriving DecidableEq

/-- JavaScript `Math.round`: round half towards positive infinity. -/
def jsRound (x : ℚ) : ℤ := ⌊x + 1 / 2⌋

/-- The rounding `Math.round(x * 100) / 100`, 2 decimal places, applied to the
reported `score` and `mismatchPercent` fields. -/
def round2 (x : ℚ) : ℚ := (jsRound (x * 100) : ℚ) / 100

/-- JavaScript `Number.prototype.toFixed(2)`, for the nonnegative values
this code ever formats (percentages and scores in `[0, 100]`). -/
def toFixed2 (x : ℚ) : String :=
  let n := jsRound (x * 100)
  let whole := n / 100
  let frac := (n % 100).toNat
  toString whole ++ "." ++ (if frac < 10 then "0" else "") ++ toString frac

/-- JavaScript default number-to-string coercion (template literals), exact
for integer-valued numbers — the only values interpolated this way here. -/
def jsNumToString (x : ℚ) : String :=
  if x.den = 1 then toString x.num else toString x

/-- Body of the `mismatchPercent === 0` tier of `generateNotes`. -/
def perfectMatchNotes : String :=
  "✅ Perfect match! The images are pixel-identical."

/-- Body of the `mismatchPercent < 1` tier of `generateNotes`. -/
def excellentMatchNotes (mismatchPercent : ℚ) : String :=
  "✅ Excellent match (" ++ toFixed2 mismatchPercent ++ "% difference). " ++
  "Minor differences detected, likely due to:\n" ++
  "  • Slight anti-aliasing variations\n" ++
  "  • Sub-pixel rendering differences\n" ++
  "  • Negligible color variations"

/-- Body of the `mismatchPercent < 5` tier of `generateNotes`. -/
def goodMatchNotes (pass : Bool) (mismatchPercent : ℚ) : String :=
  (if pass then "✅" else "⚠️") ++ " Good match (" ++ toFixed2 mismatchPercent ++
  "% difference). " ++
  "Some differences detected, possibly from:\n" ++
  "  • Font rendering variations\n" ++
  "  • Minor spacing adjustments\n" ++
  "  • Small color or contrast differences"

/-- Body of the `mismatchPercent < 15` tier of `generateNotes`. -/
def moderateDifferencesNotes (mismatchPercent : ℚ) : String :=
  "⚠️ Moderate differences (" ++ toFixed2 mismatchPercent ++ "% difference). " ++
  "Notable variations likely caused by:\n" ++
  "  • Layout shifts or spacing changes\n" ++
  "  • Different font weights or sizes\n" ++
  "  • Color scheme variations\n" ++
  "  • Missing or added UI elements"

/-- Body of the `mismatchPercent < 40` tier of `generateNotes`. -/
def significantDifferencesNotes (mismatchPercent : ℚ) : String :=
  "❌ Significant differences (" ++ toFixed2 mismatchPercent ++ "% difference). " ++
  "Major variations detected:\n" ++
  "  • Structural layout changes\n" ++
  "  • Different content or elements\n" ++
  "  • Major styling differences\n" ++
  "  • Possible incorrect screenshot"

/-- Body of the final (`mismatchPercent ≥ 40`) tier of `generateNotes`. -/
def veryHighMismatchNotes (mismatchPercent : ℚ) : String :=
  "❌ Very high mismatch (" ++ toFixed2 mismatchPercent ++ "% difference). " ++
  "The images appear substantially different:\n" ++
  "  • Completely different layouts or content\n" ++
  "  • Wrong page or screenshot captured\n" ++
  "  • Major rendering failure\n" ++
  "  • Images may be from different sources"

/-- The three lines `generateNotes` appends after the tier body. -/
def notesFooter (score passThreshold : ℚ) (pass : Bool) : String :=
  "\n\n**Objective Score:** " ++ toFixed2 score ++ "/100" ++
  "\n**Pass Threshold:** " ++ jsNumToString passThreshold ++
  "\n**Status:** " ++ (if pass then "PASS ✅" else "FAIL ❌")

/-- Embedding of `PixelDiffService.generateNotes(mismatchPercent, score, pass)`: the
six-way `if`/`else if` chain on `mismatchPercent` followed by the footer
(which reads `this.config.passThreshold`, passed here explicitly). -/
def generateNotes (passThreshold mismatchPercent score : ℚ) (pass : Bool) : String :=
  (if mismatchPercent = 0 then perfectMatchNotes
   else if mismatchPercent < 1 then excellentMatchNotes mismatchPercent
   else if mismatchPercent < 5 then goodMatchNotes pass mismatchPercent
   else if mismatchPercent < 15 then moderateDifferencesNotes mismatchPercent
   else if mismatchPercent < 40 then significantDifferencesNotes mismatchPercent
   else veryHighMismatchNotes mismatchPercent) ++
  notesFooter score passThreshold pass

/-- The filename built by `saveDiffImage` (`now` is the sanitised ISO
timestamp string). -/
def diffFileName (now : String) (slug : Option String) : String :=
  now ++ "__diff" ++ (match slug with | some s => "__" ++ s | none => "") ++ ".png"

/-- The error message thrown on a dimension mismatch. -/
def dimensionMismatchMessage (targetPNG candidatePNG : Image) : String :=
  "Image dimensions do not match: target (" ++ toString targetPNG.width ++ "x" ++
  toString targetPNG.height ++ ") vs candidate (" ++ toString candidatePNG.width ++
  "x" ++ toString candidatePNG.height ++ ")"

/-- Embedding of `PixelDiffService.compareImages`, from the decoded PNGs onwards.
`.error` models the thrown `Error`; the dimension check happens before the
diff image is created or any result field is computed, so on `.error` no
`PixelDiffResult` is constructed and no diff image is written (the diff
artifact exists only as the `diffImagePath` of an `.ok` result). -/
def compareImages (cfg : ResolvedPixelDiffConfig) (now : String)
    (targetPNG candidatePNG : Image) (slug : Option String) :
    Except String PixelDiffResult :=
  if targetPNG.width ≠ candidatePNG.width ∨ targetPNG.height ≠ candidatePNG.height then
    .error (dimensionMismatchMessage targetPNG candidatePNG)
  else
    let totalPixels := targetPNG.width * targetPNG.height
    let mismatchPixels := pixelmatchCount targetPNG.data candidatePNG.data 0.1
    let mismatchPercent : ℚ := ((mismatchPixels : ℚ) / (totalPixels : ℚ)) * 100
    let score : ℚ := max 0 (min 100 (100 - mismatchPercent))
    let pass : Bool := decide (score ≥ cfg.passThreshold)
    let notes := generateNotes cfg.passThreshold mismatchPercent score pass
    .ok { pass := pass
          score := round2 score
          mismatchPercent := round2 mismatchPercent
          mismatchPixels := mismatchPixels
          totalPixels := totalPixels
          notes := notes
          diffImagePath := cfg.diffOutputDir ++ "/" ++ diffFileName now slug }

/-! ## The recreation controller
(`src/packages/agent/src/WebsiteRecreationService.ts`) -/

/-- One item of a UI critique (`UICritiqueItem`), as consumed by
`formatCritiqueForRevision`.  `priority` is one of the strings
`"critical" | "high" | "medium" | "low"`. -/
structure CritiqueItem where
  priority : String
  category : String
  element : String
  issue : String
  expected : String
  actual : String
deriving DecidableEq

/-- A UI critique (`UICritique`): summary, `totalIssues` (documented in the
feedback package as the count of `items`) and the ordered item list. -/
structure Critique where
  summary : String
  totalIssues : ℕ
  items : List CritiqueItem
deriving DecidableEq

/-- ASCII `String.prototype.toUpperCase()`, applied to the priority tags
(`"critical"` etc.), which are ASCII. -/
def toUpperCase (s : String) : String := ⟨s.data.map Char.toUpper⟩

/-- The fixed sentence returned for a missing or issue-free critique. -/
def noIssuesSentence : String :=
  "Previous iteration had no specific issues identified."

/-- One numbered entry appended by the `forEach` loop of
`formatCritiqueForRevision` (`idx` is the 0-based position). -/
def critiqueItemEntry (idx : ℕ) (item : CritiqueItem) : String :=
  toString (idx + 1) ++ ". [" ++ toUpperCase item.priority ++ "] " ++ item.element ++ "\n" ++
  "   Category: " ++ item.category ++ "\n" ++
  "   Issue: " ++ item.issue ++ "\n" ++
  "   Expected: " ++ item.expected ++ "\n" ++
  "   Actual: " ++ item.actual ++ "\n\n"

/-- Embedding of `WebsiteRecreationService.formatCritiqueForRevision(critique)`.  The
TypeScript parameter has type `RecreationIteration['critique']`, i.e. it
may be `undefined` (`none` here); `!critique || critique.totalIssues === 0`
returns the fixed sentence, otherwise the header, summary line and the
numbered entries are concatenated in item order. -/
def formatCritiqueForRevision : Option Critique → String
  | none => noIssuesSentence
  | some critique =>
    if critique.totalIssues = 0 then noIssuesSentence
    else
      "ISSUES TO FIX (" ++ toString critique.totalIssues ++ " total):\n\n" ++
      "Summary: " ++ critique.summary ++ "\n\n" ++
      String.join (critique.items.enum.map (fun p => critiqueItemEntry p.1 p.2))

/-- The pixel-diff fields the controller records on an iteration
(`iteration.pixelDiff`), as returned by `PixelDiffService.compareImages`. -/
structure PixelSummary where
  pass : Bool
  score : ℚ
  mismatchPercent : ℚ
  diffImagePath : String
deriving DecidableEq

/-- The vision-judge fields the controller records on an iteration
(`iteration.vision`), as returned by `GeminiService.compareImages`. -/
structure VisionResult where
  pass : Bool
  score : ℚ
  notes : String
deriving DecidableEq

/-- A `RecreationIteration` record as built by the loop body (shape taken
from the object literal at the call site; `critique` is the optional field
set only when a critique was generated). -/
structure RecreationIteration where
  iteration : ℕ
  html : String
  screenshotPath : String
  pixelDiff : PixelSummary
  vision : VisionResult
  critique : Option Critique
  timestamp : String
deriving DecidableEq

/-- The `RecreateWebsiteOptions` object: the caller-supplied options the control flow
reads (all optional; viewport, waitMs, runId and the output directories
only influence artifact paths and are not modelled). -/
structure RecreateWebsiteOptions where
  maxIterations : Option ℕ := none
  pixelDiffThreshold : Option ℚ := none
  visionThreshold : Option ℚ := none

/-- The options after the `??` defaulting at the top of
`recreateWebsite` (`maxIterations ?? 6`, `pixelDiffThreshold ?? 92`,
`visionThreshold ?? 85`). -/
structure ResolvedOptions where
  maxIterations : ℕ
  pixelDiffThreshold : ℚ
  visionThreshold : ℚ
deriving DecidableEq

/-- The `??` defaulting applied to `RecreateWebsiteOptions`. -/
def resolveOptions (o : RecreateWebsiteOptions) : ResolvedOptions :=
  { maxIterations := o.maxIterations.getD 6
    pixelDiffThreshold := o.pixelDiffThreshold.getD 92
    visionThreshold := o.visionThreshold.getD 85 }

/-- The external collaborators of `WebsiteRecreationService`, injected as
oracles.  An `.error e` answer models the service call throwing an `Error`
with message `e`; each oracle receives the 1-based iteration number so a
run can observe iteration-dependent collaborator behaviour (the services
are nondeterministic LLM/browser calls). -/
structure Collaborators where
  /-- `screenshotService.captureScreenshot` for the target page, plus the
  write of the target screenshot; `.ok` carries the saved path. -/
  captureTarget : Except String String
  /-- `openaiService.generateHTMLFromScreenshot(targetScreenshotPath,
  revisionContext)` at the given iteration. -/
  generateHTML : Option String → ℕ → Except String String
  /-- `screenshotHTML(html, viewport, path)` at the given iteration;
  `.ok` carries the recreation screenshot path. -/
  screenshotHTML : ℕ → String → Except String String
  /-- `pixelDiffService.compareImages(target, recreation, slug)` at the
  given iteration. -/
  pixelCompare : ℕ → Except String PixelSummary
  /-- `geminiService.compareImages(goal, target, recreation)` at the given
  iteration. -/
  visionCompare : ℕ → Except String VisionResult
  /-- `geminiService.generateUICritique(target, recreation, context)` at
  the given iteration. -/
  generateUICritique : ℕ → Except String Critique
  /-- `new Date().toISOString()` at the start of the given iteration. -/
  timestampOf : ℕ → String

/-- The controller's mutable state across the iteration loop.  The
`stopReason` string is exactly the TypeScript union
`'success' | 'max_iterations' | 'error'` (initialised to
`'max_iterations'`).  `indexWrites` is the trace of contents written to
`<recreatedDir>/index.html`, in write order, and `contexts` the trace of
`revisionContext` values passed to the generator, in iteration order;
`stopped` records that the loop was left by `break` (success) or by the
`catch` of a thrown error. -/
structure LoopState where
  iterations : List RecreationIteration
  finalHTML : String
  stopReason : String
  errorMessage : Option String
  indexWrites : List String
  contexts : List (Option String)
  stopped : Bool
deriving DecidableEq

/-- The state on entry to the `try` block. -/
def initialState : LoopState :=
  { iterations := []
    finalHTML := ""
    stopReason := "max_iterations"
    errorMessage := none
    indexWrites := []
    contexts := []
    stopped := false }

/-- The transition into the `catch` block: record the error and leave the
loop.  The iteration record being built is abandoned (it was never pushed
onto `iterations`). -/
def errorStop (st : LoopState) (e : String) : LoopState :=
  { st with stopReason := "error", errorMessage := some e, stopped := true }

/-- The lookup `iterations[i - 2]?.critique` — the critique of the previous iteration
record.  JavaScript indexing with `i - 2 = -1` (i.e. `i = 1`) yields
`undefined`, hence the `2 ≤ i` guard. -/
def previousCritique (st : LoopState) (i : ℕ) : Option Critique :=
  if 2 ≤ i then (st.iterations.get? (i - 2)).bind (·.critique) else none

/-- The expression `previousCritique ? this.formatCritiqueForRevision(previousCritique)
: undefined`. -/
def revisionContextFor (st : LoopState) (i : ℕ) : Option String :=
  (previousCritique st i).map (fun cr => formatCritiqueForRevision (some cr))

/-- One pass through the body of `for (let i = 1; i <= maxIterations; i++)`.
A `stopped` state is returned unchanged (the loop was already left by
`break` or by the thrown error reaching the `catch`).  Every `await` of a
collaborator may throw (`.error`), transferring control to the `catch`
(`errorStop`). -/
def step (c : Collaborators) (o : ResolvedOptions) (i : ℕ) (st : LoopState) : LoopState :=
  if st.stopped then st
  else
    let revisionContext := revisionContextFor st i
    let st := { st with contexts := st.contexts ++ [revisionContext] }
    match c.generateHTML revisionContext i with
    | .error e => errorStop st e
    | .ok html =>
      -- save `iteration_<i>.html`; additionally save as `index.html` when
      -- this is the final budgeted iteration
      let st := if i = o.maxIterations
        then { st with indexWrites := st.indexWrites ++ [html] } else st
      match c.screenshotHTML i html with
      | .error e => errorStop st e
      | .ok screenshotPath =>
        match c.pixelCompare i with
        | .error e => errorStop st e
        | .ok pixelDiffResult =>
          match c.visionCompare i with
          | .error e => errorStop st e
          | .ok visionResult =>
            let bothPass : Bool :=
              decide (pixelDiffResult.score ≥ o.pixelDiffThreshold) &&
              decide (visionResult.score ≥ o.visionThreshold)
            let iteration : RecreationIteration :=
              { iteration := i
                html := html
                screenshotPath := screenshotPath
                pixelDiff := pixelDiffResult
                vision := visionResult
                critique := none
                timestamp := c.timestampOf i }
            if bothPass then
              { st with
                finalHTML := html
                stopReason := "success"
                iterations := st.iterations ++ [iteration]
                indexWrites := st.indexWrites ++ [html]
                stopped := true }
            else if i < o.maxIterations then
              match c.generateUICritique i with
              | .error e => errorStop st e
              | .ok critique =>
                let recorded : Critique :=
                  { summary := critique.summary
                    totalIssues := critique.totalIssues
                    items := critique.items }
                { st with
                  iterations := st.iterations ++ [{ iteration with critique := some recorded }]
                  finalHTML := html }
            else
              { st with
                iterations := st.iterations ++ [iteration]
                finalHTML := html }

/-- The whole iteration loop: fold the body over `i = 1 .. maxIterations`. -/
def runLoop (c : Collaborators) (o : ResolvedOptions) : LoopState :=
  (List.range' 1 o.maxIterations).foldl (fun st i => step c o i st) initialState

/-- The result object (`RecreateWebsiteResult`) built after the loop; the
session summary written to `summary.json` is `JSON.stringify` of exactly
this object. -/
structure RecreateWebsiteResult where
  success : Bool
  finalHTML : String
  iterations : List RecreationIteration
  totalIterations : ℕ
  finalPixelDiffScore : ℚ
  finalVisionScore : ℚ
  stopReason : String
  errorMessage : Option String
deriving DecidableEq

/-- The "Prepare final result" block at the end of `recreateWebsite`. -/
def buildResult (st : LoopState) : RecreateWebsiteResult :=
  { success := st.stopReason == "success"
    finalHTML := st.finalHTML
    iterations := st.iterations
    totalIterations := st.iterations.length
    finalPixelDiffScore := (st.iterations.getLast?.map (·.pixelDiff.score)).getD 0
    finalVisionScore := (st.iterations.getLast?.map (·.vision.score)).getD 0
    stopReason := st.stopReason
    errorMessage := st.errorMessage }

/-- Embedding of `WebsiteRecreationService.recreateWebsite(url, options)`: resolve the
option defaults, capture the target (a failure here is caught with no
iterations attempted), run the iteration loop, and build the final
result/summary. -/
def recreateWebsite (c : Collaborators) (options : RecreateWebsiteOptions) :
    RecreateWebsiteResult :=
  let o := resolveOptions options
  match c.captureTarget with
  | .error e => buildResult (errorStop initialState e)
  | .ok _ => buildResult (runLoop c o)

/-! ## Concrete inputs used by witnesses and counterexamples -/

/-- An opaque black pixel. -/
def blackPixel : RGBA := ⟨0, 0, 0, 255⟩

/-- An opaque white pixel. -/
def whitePixel : RGBA := ⟨255, 255, 255, 255⟩

/-- A 1×1 black image. -/
def onePixelImage : Image := ⟨1, 1, [blackPixel]⟩

/-- A 2×1 black image (dimension-mismatch partner of `onePixelImage`). -/
def twoPixelImage : Image := ⟨2, 1, [blackPixel, blackPixel]⟩

/-- The configuration of `new PixelDiffService()` — the all-defaults configuration. -/
def defaultPixelConfig : ResolvedPixelDiffConfig := resolvePixelDiffConfig {}

/-- The configuration of `new PixelDiffService({passThreshold: 50.13})` — a threshold sitting in
the gap opened by the 2-decimal rounding of the reported score. -/
def thresholdGapConfig : ResolvedPixelDiffConfig :=
  resolvePixelDiffConfig { passThreshold := some 50.13 }

/-- A 40×20 all-black target. -/
def gapTarget : Image := ⟨40, 20, List.replicate 800 blackPixel⟩

/-- A 40×20 candidate differing from `gapTarget` in exactly 399 of its 800
pixels, so that the exact score is `50.125` but the reported score rounds
to `50.13`. -/
def gapCandidate : Image :=
  ⟨40, 20, List.replicate 399 whitePixel ++ List.replicate 401 blackPixel⟩

/-- A failing pixel-diff answer (score 50, below the default threshold 92). -/
def failingPixelSummary : PixelSummary :=
  { pass := false, score := 50, mismatchPercent := 50
    diffImagePath := "images/diffs/d.png" }

/-- A failing vision-judge answer (score 40, below the default threshold 85). -/
def failingVisionResult : VisionResult :=
  { pass := false, score := 40, notes := "layout differs" }

/-- A passing pixel-diff answer (score 95 ≥ 92). -/
def passingPixelSummary : PixelSummary :=
  { pass := true, score := 95, mismatchPercent := 5
    diffImagePath := "images/diffs/d.png" }

/-- A passing vision-judge answer (score 90 ≥ 85). -/
def passingVisionResult : VisionResult :=
  { pass := true, score := 90, notes := "close match" }

/-- A concrete critique item. -/
def sampleCritiqueItem : CritiqueItem :=
  { priority := "critical", category := "layout", element := "header"
    issue := "header missing", expected := "blue header", actual := "no header" }

/-- A concrete one-item critique (its `totalIssues` equals its item count,
as the feedback package documents). -/
def sampleCritique : Critique :=
  { summary := "one major issue", totalIssues := 1, items := [sampleCritiqueItem] }

/-- Collaborators that always answer successfully but with failing scores;
critique generation succeeds with `sampleCritique`. -/
def failingScoresCollab : Collaborators :=
  { captureTarget := .ok "images/screenshots/run_target.png"
    generateHTML := fun _ i => .ok ("<html>attempt " ++ toString i ++ "</html>")
    screenshotHTML := fun i _ =>
      .ok ("images/screenshots/run_iteration_" ++ toString i ++ ".png")
    pixelCompare := fun _ => .ok failingPixelSummary
    visionCompare := fun _ => .ok failingVisionResult
    generateUICritique := fun _ => .ok sampleCritique
    timestampOf := fun _ => "2026-01-01T00:00:00.000Z" }

/-- Like `failingScoresCollab`, but the critique collaborator always
throws. -/
def throwingCritiqueCollab : Collaborators :=
  { failingScoresCollab with generateUICritique := fun _ => .error "Gemini API error" }

/-- Like `failingScoresCollab`, but both scores pass their default
thresholds. -/
def passingScoresCollab : Collaborators :=
  { failingScoresCollab with
    pixelCompare := fun _ => .ok passingPixelSummary
    visionCompare := fun _ => .ok passingVisionResult }

/-- Options `{maxIterations: 1}`. -/
def oneIterationOptions : RecreateWebsiteOptions := { maxIterations := some 1 }

/-- Options `{maxIterations: 2}`. -/
def twoIterationOptions : RecreateWebsiteOptions := { maxIterations := some 2 }

/-- The revision-context discipline over a trace: the context recorded for
iteration `k + 1` (position `k` of the trace) is `none` for iteration 1
and, for later iterations, is derived from exactly the critique stored on
record `k` (the previous iteration), which is present. -/
def ContextsD (its : List RecreationIteration) (ctxs : List (Option String)) : Prop :=
  ∀ k ctx, ctxs.get? k = some ctx →
    (k = 0 → ctx = none) ∧
    (1 ≤ k → ∃ r, its.get? (k - 1) = some r ∧ r.iteration = k ∧
      r.critique.isSome = true ∧
      ctx = r.critique.map (fun cr => formatCritiqueForRevision (some cr)))

/-- The loop invariant used to analyse `runLoop`: record numbering is
1-based and gapless; while the loop has not stopped, one record and one
generation context exist per processed iteration and every record except
one for the final budgeted iteration carries a critique; and the recorded
generation contexts obey `ContextsD`. -/
def LoopInv (o : ResolvedOptions) (n : ℕ) (st : LoopState) : Prop :=
  (∀ j r, st.iterations.get? j = some r → r.iteration = j + 1) ∧
  (st.stopped = false → st.iterations.length = n ∧ st.contexts.length = n) ∧
  (st.stopped = false → ∀ j r, st.iterations.get? j = some r →
    r.critique.isSome = true ∨ r.iteration = o.maxIterations) ∧
  ContextsD st.iterations st.contexts

/-- The renderer described by the specification of the revision-context
builder, written from the spec's words: null or zero *items* gives the
fixed sentence, otherwise an issue count and summary line followed by one
entry per item in original order. -/
def revisionContextSpec (oc : Option Critique) : String :=
  match oc with
  | none => noIssuesSentence
  | some c =>
    if c.items.length = 0 then noIssuesSentence
    else
      "ISSUES TO FIX (" ++ toString c.items.length ++ " total):\n\n" ++
      "Summary: " ++ c.summary ++ "\n\n" ++
      String.join (c.items.enum.map (fun p => critiqueItemEntry p.1 p.2))

end CliAiToolkit

namespace CliAiToolkit

/-! ## Shared lemmas about the pixel engine -/

theorem colorDelta_self (p : RGBA) : colorDelta p p = 0 := by
  simp [colorDelta]

theorem pixelmatchCount_self (d : List RGBA) : pixelmatchCount d d 0.1 = 0 := by
  induction d with
  | nil => rfl
  | cons x xs ih =>
    unfold pixelmatchCount at ih ⊢
    rw [List.zip_cons_cons, List.countP_cons, ih, colorDelta_self]
    norm_num

theorem colorDelta_black_white_large :
    |colorDelta blackPixel whitePixel| > 35215 * 0.1 * 0.1 := by
  refine lt_of_lt_of_le ?_ (le_abs_self _)
  norm_num [colorDelta, blackPixel, whitePixel, blend, rgb2y, rgb2i, rgb2q]

theorem gapCount : pixelmatchCount gapTarget.data gapCandidate.data 0.1 = 399 := by
  unfold pixelmatchCount gapTarget gapCandidate
  rw [show (List.replicate 800 blackPixel : List RGBA) =
        List.replicate 399 blackPixel ++ List.replicate 401 blackPixel by
      rw [← List.replicate_add]]
  rw [List.zip_append (by rw [List.length_replicate, List.length_replicate]),
    List.countP_append, List.zip_replicate, List.zip_replicate, min_self, min_self,
    List.countP_replicate, List.countP_replicate]
  rw [if_pos (by simp only [decide_eq_true_eq]; exact colorDelta_black_white_large),
    if_neg (by norm_num [colorDelta_self])]

/-! ## Claim C4 -/

/-- C4: for every pair of decoded images whose width or height differ,
`PixelDiffService.compareImages` fails with the dimension-mismatch error;
no `PixelDiffResult` is constructed and no diff image is written (the
computation returns `.error` before the diff artifact or any result field
exists). -/
theorem compareImages_dimension_mismatch_fails (cfg : ResolvedPixelDiffConfig)
    (now : String) (targetPNG candidatePNG : Image) (slug : Option String)
    (h : targetPNG.width ≠ candidatePNG.width ∨ targetPNG.height ≠ candidatePNG.height) :
    compareImages cfg now targetPNG candidatePNG slug =
      .error (dimensionMismatchMessage targetPNG candidatePNG) := by
  unfold compareImages
  rw [if_pos h]

/-- Witness for C4 at a concrete 1×1 target and 2×1 candidate. -/
theorem compareImages_dimension_mismatch_fails_witness :
    (onePixelImage.width ≠ twoPixelImage.width ∨
      onePixelImage.height ≠ twoPixelImage.height) ∧
    compareImages defaultPixelConfig "2026-01-01T00-00-00" onePixelImage
        twoPixelImage none =
      .error "Image dimensions do not match: target (1x1) vs candidate (2x1)" := by
  refine ⟨Or.inl (by decide), ?_⟩
  rw [compareImages_dimension_mismatch_fails defaultPixelConfig "2026-01-01T00-00-00"
    onePixelImage twoPixelImage none (Or.inl (by decide))]
  exact congrArg Except.error (by decide)

/-! ## Claim C7 -/

/-- C7: the notes of a comparison are a deterministic function of
`mismatchPercent` (given the fixed configured threshold appearing in the
footer) with exactly six tiers: `m = 0` perfect; `0 < m < 1` excellent;
`1 ≤ m < 5` good; `5 ≤ m < 15` moderate; `15 ≤ m < 40` significant;
`m ≥ 40` very high mismatch. -/
theorem generateNotes_six_tiers (passThreshold mismatchPercent score : ℚ) (pass : Bool) :
    (mismatchPercent = 0 →
      generateNotes passThreshold mismatchPercent score pass =
        perfectMatchNotes ++ notesFooter score passThreshold pass) ∧
    (0 < mismatchPercent → mismatchPercent < 1 →
      generateNotes passThreshold mismatchPercent score pass =
        excellentMatchNotes mismatchPercent ++ notesFooter score passThreshold pass) ∧
    (1 ≤ mismatchPercent → mismatchPercent < 5 →
      generateNotes passThreshold mismatchPercent score pass =
        goodMatchNotes pass mismatchPercent ++ notesFooter score passThreshold pass) ∧
    (5 ≤ mismatchPercent → mismatchPercent < 15 →
      generateNotes passThreshold mismatchPercent score pass =
        moderateDifferencesNotes mismatchPercent ++ notesFooter score passThreshold pass) ∧
    (15 ≤ mismatchPercent → mismatchPercent < 40 →
      generateNotes passThreshold mismatchPercent score pass =
        significantDifferencesNotes mismatchPercent ++ notesFooter score passThreshold pass) ∧
    (40 ≤ mismatchPercent →
      generateNotes passThreshold mismatchPercent score pass =
        veryHighMismatchNotes mismatchPercent ++ notesFooter score passThreshold pass) := by
  unfold generateNotes
  refine ⟨fun h1 => ?_, fun h1 h2 => ?_, fun h1 h2 => ?_, fun h1 h2 => ?_,
    fun h1 h2 => ?_, fun h1 => ?_⟩
  · rw [if_pos h1]
  · rw [if_neg (ne_of_gt h1), if_pos h2]
  · rw [if_neg (by intro h; rw [h] at h1; linarith), if_neg (not_lt.mpr h1), if_pos h2]
  · rw [if_neg (by intro h; rw [h] at h1; linarith), if_neg (not_lt.mpr (by linarith)),
      if_neg (not_lt.mpr h1), if_pos h2]
  · rw [if_neg (by intro h; rw [h] at h1; linarith), if_neg (not_lt.mpr (by linarith)),
      if_neg (not_lt.mpr (by linarith)), if_neg (not_lt.mpr h1), if_pos h2]
  · rw [if_neg (by intro h; rw [h] at h1; linarith), if_neg (not_lt.mpr (by linarith)),
      if_neg (not_lt.mpr (by linarith)), if_neg (not_lt.mpr (by linarith)),
      if_neg (not_lt.mpr h1)]

/-- Witness for C7 in the `1 ≤ m < 5` tier, at `m = 3`. -/
theorem generateNotes_six_tiers_witness :
    (1 ≤ (3 : ℚ) ∧ (3 : ℚ) < 5) ∧
    generateNotes 92 3 97 true = goodMatchNotes true 3 ++ notesFooter 97 92 true := by
  refine ⟨by norm_num, ?_⟩
  exact (generateNotes_six_tiers 92 3 97 true).2.2.1 (by norm_num) (by norm_num)

/-! ## Claim C8 -/

/-- C8: every successful comparison reports
`mismatchPercent = (mismatchPixels / totalPixels) * 100` and
`score = clamp(100 - mismatchPercent, 0, 100)` with
`totalPixels = width * height`, exactly up to the 2-decimal rounding of
the two reported rational fields; identical pixel data forces
`mismatchPixels = 0` and `score = 100`. -/
theorem compareImages_score_formula (cfg : ResolvedPixelDiffConfig) (now : String)
    (targetPNG candidatePNG : Image) (slug : Option String)
    (hw : targetPNG.width = candidatePNG.width)
    (hh : targetPNG.height = candidatePNG.height) :
    ∃ r : PixelDiffResult,
      compareImages cfg now targetPNG candidatePNG slug = .ok r ∧
      r.totalPixels = targetPNG.width * targetPNG.height ∧
      r.mismatchPercent = round2 (((r.mismatchPixels : ℚ) / (r.totalPixels : ℚ)) * 100) ∧
      r.score =
        round2 (max 0 (min 100
          (100 - ((r.mismatchPixels : ℚ) / (r.totalPixels : ℚ)) * 100))) ∧
      (targetPNG.data = candidatePNG.data → r.mismatchPixels = 0 ∧ r.score = 100) := by
  unfold compareImages
  rw [if_neg (by push_neg; exact ⟨hw, hh⟩)]
  refine ⟨_, rfl, rfl, rfl, rfl, fun hd => ?_⟩
  constructor
  · show pixelmatchCount targetPNG.data candidatePNG.data 0.1 = 0
    rw [hd]
    exact pixelmatchCount_self _
  · show round2 (max 0 (min 100
      (100 - ((pixelmatchCount targetPNG.data candidatePNG.data 0.1 : ℚ) /
        ((targetPNG.width * targetPNG.height : ℕ) : ℚ)) * 100))) = 100
    rw [hd, pixelmatchCount_self]
    norm_num [round2, jsRound]

/-- Witness for C8 at a concrete 1×1 image compared against itself. -/
theorem compareImages_score_formula_witness :
    ∃ r : PixelDiffResult,
      compareImages defaultPixelConfig "2026-01-01T00-00-00" onePixelImage
          onePixelImage none = .ok r ∧
      r.totalPixels = onePixelImage.width * onePixelImage.height ∧
      r.mismatchPercent = round2 (((r.mismatchPixels : ℚ) / (r.totalPixels : ℚ)) * 100) ∧
      r.score =
        round2 (max 0 (min 100
          (100 - ((r.mismatchPixels : ℚ) / (r.totalPixels : ℚ)) * 100))) ∧
      (onePixelImage.data = onePixelImage.data → r.mismatchPixels = 0 ∧ r.score = 100) :=
  compareImages_score_formula defaultPixelConfig "2026-01-01T00-00-00" onePixelImage
    onePixelImage none rfl rfl

/-! ## Claim C9 -/

/-- C9 counterexample: with threshold `50.13` and a 40×20 pair mismatching
in 399 of 800 pixels, the exact score is `50.125 < 50.13`, so `pass` is
`false`, yet the *returned* (2-decimal-rounded) score is `50.13`, which
does meet the threshold — refuting "pass iff returned score ≥ threshold". -/
theorem compareImages_pass_rounded_gap_counterexample :
    (compareImages thresholdGapConfig "2026-01-01T00-00-00" gapTarget
        gapCandidate none).map
      (fun r => (r.pass, decide (r.score ≥ thresholdGapConfig.passThreshold))) =
    .ok (false, true) := by
  unfold compareImages
  rw [if_neg (by decide)]
  simp only [Except.map]
  rw [gapCount]
  norm_num [thresholdGapConfig, resolvePixelDiffConfig, round2, jsRound, gapTarget,
    max_def, min_def, Option.getD]

/-- C9 amended: `pass` is computed from the exact clamped score
`max 0 (min 100 (100 - (mismatchPixels / totalPixels) * 100))` *before*
the reported score is rounded to 2 decimal places, so `pass = true` iff
that pre-rounding score meets the configured threshold (comparing the
reported rounded score against the threshold can disagree on boundary
inputs such as the counterexample above). -/
theorem compareImages_pass_iff_unrounded_score (cfg : ResolvedPixelDiffConfig)
    (now : String) (targetPNG candidatePNG : Image) (slug : Option String)
    (r : PixelDiffResult)
    (h : compareImages cfg now targetPNG candidatePNG slug = .ok r) :
    r.pass = true ↔
      cfg.passThreshold ≤
        max 0 (min 100 (100 - ((r.mismatchPixels : ℚ) / (r.totalPixels : ℚ)) * 100)) := by
  unfold compareImages at h
  by_cases hd : targetPNG.width ≠ candidatePNG.width ∨ targetPNG.height ≠ candidatePNG.height
  · rw [if_pos hd] at h
    cases h
  · rw [if_neg hd] at h
    injection h with h
    subst h
    simp only [decide_eq_true_eq, ge_iff_le]

/-! ## Shared lemmas about the controller loop -/

theorem step_of_stopped (c : Collaborators) (o : ResolvedOptions) (i : ℕ)
    (st : LoopState) (h : st.stopped = true) : step c o i st = st := by
  unfold step
  rw [if_pos h]

theorem range_one_one : List.range' 1 1 = [1] := by decide

theorem range_one_two : List.range' 1 2 = [1, 2] := by decide

/-! ## Claim C10 -/

/-- C10: the revision-context builder is a pure function of its critique
argument and refines the specified rendering: `none` (or, given the
documented `totalIssues = items.length` invariant, zero items) yields the
fixed "no issues identified" sentence, and otherwise the issue count and
summary line followed by one `critiqueItemEntry` per item in original
order (each rendering the upper-cased priority, category, element, issue,
expected and actual values). -/
theorem formatCritiqueForRevision_matches_spec (oc : Option Critique)
    (hinv : ∀ cr, oc = some cr → cr.totalIssues = cr.items.length) :
    formatCritiqueForRevision oc = revisionContextSpec oc := by
  cases oc with
  | none => rfl
  | some cr =>
    have h := hinv cr rfl
    simp only [formatCritiqueForRevision, revisionContextSpec]
    rw [h]

/-- Witness for C10 at a concrete one-item critique. -/
theorem formatCritiqueForRevision_matches_spec_witness :
    formatCritiqueForRevision (some sampleCritique) = revisionContextSpec (some sampleCritique) :=
  formatCritiqueForRevision_matches_spec (some sampleCritique)
    (fun cr h => by cases h; rfl)

/-! ## Claim C1 -/

/-- C1 counterexample: a critique collaborator that throws is *not* caught
by the loop — with failing scores and `maxIterations = 2`, the thrown
`"Gemini API error"` reaches the outer `catch`, the session stops with
`stopReason = "error"` caused by the critique call, and not even the
failing iteration's record survives. -/
theorem critique_failure_error_counterexample :
    (recreateWebsite throwingCritiqueCollab twoIterationOptions).stopReason = "error" ∧
    (recreateWebsite throwingCritiqueCollab twoIterationOptions).errorMessage =
      some "Gemini API error" ∧
    (recreateWebsite throwingCritiqueCollab twoIterationOptions).totalIterations = 0 := by
  have h2 : resolveOptions twoIterationOptions =
      { maxIterations := 2, pixelDiffThreshold := 92, visionThreshold := 85 } := rfl
  norm_num [recreateWebsite, runLoop, h2, range_one_two, throwingCritiqueCollab,
    failingScoresCollab, step, revisionContextFor, previousCritique, initialState,
    errorStop, buildResult, failingPixelSummary, failingVisionResult]

/-- C1 amended: a failure thrown by the critique collaborator
(`generateUICritique`) on a failing iteration with iterations remaining is
*not* caught and recorded — it aborts the session: the state transitions
to the catch block with `stopReason = "error"`, the thrown message as the
error message, the in-flight iteration record dropped (the iteration list
is unchanged), and the loop stopped. -/
theorem critique_failure_aborts (c : Collaborators) (o : ResolvedOptions) (i : ℕ)
    (st : LoopState) (html screenshotPath : String) (pd : PixelSummary)
    (vr : VisionResult) (e : String)
    (hstop : st.stopped = false)
    (hgen : c.generateHTML (revisionContextFor st i) i = .ok html)
    (hshot : c.screenshotHTML i html = .ok screenshotPath)
    (hpd : c.pixelCompare i = .ok pd)
    (hvr : c.visionCompare i = .ok vr)
    (hfail : ¬(pd.score ≥ o.pixelDiffThreshold ∧ vr.score ≥ o.visionThreshold))
    (hlt : i < o.maxIterations)
    (hcrit : c.generateUICritique i = .error e) :
    (step c o i st).stopReason = "error" ∧
    (step c o i st).errorMessage = some e ∧
    (step c o i st).iterations = st.iterations ∧
    (step c o i st).stopped = true := by
  have hb : (decide (pd.score ≥ o.pixelDiffThreshold) &&
      decide (vr.score ≥ o.visionThreshold)) = false := by
    rcases not_and_or.mp hfail with h | h <;> simp [decide_eq_false_iff_not.mpr h]
  unfold step
  rw [hstop]
  simp only [Bool.false_eq_true, if_false, hgen, hshot, hpd, hvr, hb, hcrit, hlt,
    if_true, ite_true, ite_false, errorStop]
  refine ⟨trivial, trivial, ?_, trivial⟩
  split <;> rfl

/-- Witness for C1's amended theorem: `throwingCritiqueCollab` at
iteration 1 of a 2-iteration budget, from the initial state. -/
theorem critique_failure_aborts_witness :
    (step throwingCritiqueCollab (resolveOptions twoIterationOptions) 1
      initialState).stopReason = "error" ∧
    (step throwingCritiqueCollab (resolveOptions twoIterationOptions) 1
      initialState).errorMessage = some "Gemini API error" ∧
    (step throwingCritiqueCollab (resolveOptions twoIterationOptions) 1
      initialState).iterations = initialState.iterations ∧
    (step throwingCritiqueCollab (resolveOptions twoIterationOptions) 1
      initialState).stopped = true :=
  critique_failure_aborts throwingCritiqueCollab (resolveOptions twoIterationOptions) 1
    initialState "<html>attempt 1</html>" "images/screenshots/run_iteration_1.png"
    failingPixelSummary failingVisionResult "Gemini API error" rfl rfl rfl rfl rfl
    (by norm_num [failingPixelSummary, failingVisionResult, resolveOptions,
      twoIterationOptions, Option.getD])
    (by norm_num [resolveOptions, twoIterationOptions, Option.getD]) rfl

/-- Witness for C9's amended theorem at the 1×1 identical pair. -/
theorem compareImages_pass_iff_unrounded_score_witness :
    (compareImages defaultPixelConfig "2026-01-01T00-00-00" onePixelImage
        onePixelImage none).map
      (fun r => decide (r.pass = true ↔
        defaultPixelConfig.passThreshold ≤
          max 0 (min 100
            (100 - ((r.mismatchPixels : ℚ) / (r.totalPixels : ℚ)) * 100)))) =
    .ok true := by
  cases heq : compareImages defaultPixelConfig "2026-01-01T00-00-00" onePixelImage
      onePixelImage none with
  | error e =>
    unfold compareImages at heq
    rw [if_neg (by decide)] at heq
    simp at heq
  | ok r =>
    simp only [Except.map, Except.ok.injEq]
    rw [decide_eq_true_eq]
    exact compareImages_pass_iff_unrounded_score defaultPixelConfig "2026-01-01T00-00-00"
      onePixelImage onePixelImage none r heq

/-! ## Claim C2 -/

/-- C2: the decide step of an iteration declares a pass iff the recorded
pixel-diff score meets the pixel threshold and the judge score meets the
vision threshold (the code has no way to disable the judge, so the
claim's "judge disabled" disjunct is always false and the condition
reduces to this conjunction).  On a pass the controller marks the session
successful, appends the iteration record with no critique, writes the
iteration's HTML as the final `index.html` content, stops, and every
further loop index leaves the state unchanged. -/
theorem decide_pass_success_criteria (c : Collaborators) (o : ResolvedOptions) (i : ℕ)
    (st : LoopState) (html screenshotPath : String) (pd : PixelSummary)
    (vr : VisionResult)
    (hstop : st.stopped = false)
    (hsr : st.stopReason = "max_iterations")
    (hgen : c.generateHTML (revisionContextFor st i) i = .ok html)
    (hshot : c.screenshotHTML i html = .ok screenshotPath)
    (hpd : c.pixelCompare i = .ok pd)
    (hvr : c.visionCompare i = .ok vr) :
    ((step c o i st).stopReason = "success" ↔
      (pd.score ≥ o.pixelDiffThreshold ∧ vr.score ≥ o.visionThreshold)) ∧
    ((pd.score ≥ o.pixelDiffThreshold ∧ vr.score ≥ o.visionThreshold) →
      step c o i st =
        { iterations := st.iterations ++
            [{ iteration := i, html := html, screenshotPath := screenshotPath,
               pixelDiff := pd, vision := vr, critique := none,
               timestamp := c.timestampOf i }]
          finalHTML := html
          stopReason := "success"
          errorMessage := st.errorMessage
          indexWrites := (if i = o.maxIterations then st.indexWrites ++ [html]
            else st.indexWrites) ++ [html]
          contexts := st.contexts ++ [revisionContextFor st i]
          stopped := true } ∧
      (∀ j, step c o j (step c o i st) = step c o i st)) := by
  by_cases hp : pd.score ≥ o.pixelDiffThreshold ∧ vr.score ≥ o.visionThreshold
  · have hb : (decide (pd.score ≥ o.pixelDiffThreshold) &&
        decide (vr.score ≥ o.visionThreshold)) = true := by
      simp [hp.1, hp.2]
    have hstate : step c o i st =
        { iterations := st.iterations ++
            [{ iteration := i, html := html, screenshotPath := screenshotPath,
               pixelDiff := pd, vision := vr, critique := none,
               timestamp := c.timestampOf i }]
          finalHTML := html
          stopReason := "success"
          errorMessage := st.errorMessage
          indexWrites := (if i = o.maxIterations then st.indexWrites ++ [html]
            else st.indexWrites) ++ [html]
          contexts := st.contexts ++ [revisionContextFor st i]
          stopped := true } := by
      unfold step
      rw [hstop]
      simp only [Bool.false_eq_true, if_false, hgen, hshot, hpd, hvr, hb, if_true,
        ite_true]
      split <;> rfl
    refine ⟨?_, fun _ => ⟨hstate, fun j => step_of_stopped c o j _ (by rw [hstate])⟩⟩
    rw [hstate]
    simpa using hp
  · have hb : (decide (pd.score ≥ o.pixelDiffThreshold) &&
        decide (vr.score ≥ o.visionThreshold)) = false := by
      rcases not_and_or.mp hp with h | h <;> simp [decide_eq_false_iff_not.mpr h]
    refine ⟨?_, fun hphp => absurd hphp hp⟩
    unfold step
    rw [hstop]
    simp only [Bool.false_eq_true, if_false, hgen, hshot, hpd, hvr, hb]
    constructor
    · intro hcontra
      exfalso
      by_cases hlt : i < o.maxIterations
      · rw [if_pos hlt] at hcontra
        cases hc : c.generateUICritique i with
        | error e =>
          rw [hc] at hcontra
          simp [errorStop] at hcontra
        | ok cr =>
          rw [hc] at hcontra
          simp only [] at hcontra
          split at hcontra <;> simp [hsr] at hcontra
      · rw [if_neg hlt] at hcontra
        split at hcontra <;> simp [hsr] at hcontra
    · intro hphp
      exact absurd hphp hp

/-- Witness for C2: with passing scores (95 ≥ 92, 90 ≥ 85) at iteration 1
of a 2-iteration budget, the step stops with `stopReason = "success"`. -/
theorem decide_pass_success_criteria_witness :
    (step passingScoresCollab (resolveOptions twoIterationOptions) 1
      initialState).stopReason = "success" :=
  ((decide_pass_success_criteria passingScoresCollab (resolveOptions twoIterationOptions)
      1 initialState _ _ passingPixelSummary passingVisionResult rfl rfl rfl rfl
      rfl rfl).1).mpr
    (by norm_num [passingPixelSummary, passingVisionResult, resolveOptions,
      twoIterationOptions, Option.getD])

/-! ## Claim C3 -/

theorem step_iterations_length (c : Collaborators) (o : ResolvedOptions) (i : ℕ)
    (st : LoopState) :
    (step c o i st).iterations.length ≤ st.iterations.length + 1 := by
  simp only [step]
  repeat' split
  all_goals simp_arith [errorStop, List.length_append]

theorem foldl_step_iterations_length (c : Collaborators) (o : ResolvedOptions)
    (l : List ℕ) : ∀ st : LoopState,
    (l.foldl (fun s i => step c o i s) st).iterations.length ≤
      st.iterations.length + l.length := by
  induction l with
  | nil => intro st; simp
  | cons x xs ih =>
    intro st
    simp only [List.foldl_cons, List.length_cons]
    calc (xs.foldl (fun s i => step c o i s) (step c o x st)).iterations.length ≤
        (step c o x st).iterations.length + xs.length := ih _
      _ ≤ st.iterations.length + 1 + xs.length :=
        Nat.add_le_add_right (step_iterations_length c o x st) _
      _ = st.iterations.length + (xs.length + 1) := by omega

/-- C3: the session never produces more iteration records than
`maxIterations` (the embedded loop is a fold over `[1..K]`, hence total,
so the session always terminates); and for `maxIterations = 1`, when the
target capture and iteration 1's collaborator calls all succeed, the
session stops after exactly one iteration with `stopReason` either
`"success"` or the exhausted label `"max_iterations"`. -/
theorem recreateWebsite_terminates_within_budget (c : Collaborators)
    (po : RecreateWebsiteOptions) (targetPath html screenshotPath : String)
    (pd : PixelSummary) (vr : VisionResult) :
    (recreateWebsite c po).totalIterations ≤ (resolveOptions po).maxIterations ∧
    ((resolveOptions po).maxIterations = 1 →
      c.captureTarget = .ok targetPath →
      c.generateHTML none 1 = .ok html →
      c.screenshotHTML 1 html = .ok screenshotPath →
      c.pixelCompare 1 = .ok pd →
      c.visionCompare 1 = .ok vr →
      ((recreateWebsite c po).stopReason = "success" ∨
        (recreateWebsite c po).stopReason = "max_iterations") ∧
      (recreateWebsite c po).totalIterations = 1) := by
  constructor
  · cases hcap : c.captureTarget with
    | error e => simp [recreateWebsite, hcap, buildResult, errorStop, initialState]
    | ok tp =>
      simp only [recreateWebsite, hcap, buildResult]
      have h := foldl_step_iterations_length c (resolveOptions po)
        (List.range' 1 (resolveOptions po).maxIterations) initialState
      simpa [runLoop, initialState] using h
  · intro hK hcap hgen hshot hpd hvr
    have hrw : recreateWebsite c po =
        buildResult (step c (resolveOptions po) 1 initialState) := by
      simp only [recreateWebsite, hcap]
      unfold runLoop
      rw [hK, range_one_one]
      rfl
    rw [hrw]
    have hrc : revisionContextFor initialState 1 = none := rfl
    unfold step
    rw [show initialState.stopped = false from rfl]
    rw [← hrc] at hgen
    simp only [Bool.false_eq_true, if_false, hgen, hshot, hpd, hvr, hK]
    by_cases hb : (decide (pd.score ≥ (resolveOptions po).pixelDiffThreshold) &&
        decide (vr.score ≥ (resolveOptions po).visionThreshold)) = true
    · rw [hb]
      simp [buildResult, initialState]
    · rw [Bool.not_eq_true] at hb
      rw [hb]
      simp [buildResult, initialState]

/-- Witness for C3: `maxIterations = 1` with successful collaborators and
failing scores reaches `"max_iterations"` after exactly one iteration. -/
theorem recreateWebsite_terminates_within_budget_witness :
    (recreateWebsite failingScoresCollab oneIterationOptions).totalIterations ≤
      (resolveOptions oneIterationOptions).maxIterations ∧
    ((recreateWebsite failingScoresCollab oneIterationOptions).stopReason = "success" ∨
      (recreateWebsite failingScoresCollab oneIterationOptions).stopReason =
        "max_iterations") ∧
    (recreateWebsite failingScoresCollab oneIterationOptions).totalIterations = 1 := by
  have h := recreateWebsite_terminates_within_budget failingScoresCollab
    oneIterationOptions "images/screenshots/run_target.png" "<html>attempt 1</html>"
    "images/screenshots/run_iteration_1.png" failingPixelSummary failingVisionResult
  exact ⟨h.1, h.2 rfl rfl rfl rfl rfl rfl⟩

/-! ## Claim C6 -/

/-- C6 counterexample: a session that exhausts its budget reports
`stopReason = "max_iterations"`, which is not one of
`{success, exhausted, error}` — the code never uses the label
`"exhausted"`. -/
theorem stopReason_exhausted_label_counterexample :
    (recreateWebsite failingScoresCollab oneIterationOptions).stopReason =
      "max_iterations" ∧
    "max_iterations" ∉ (["success", "exhausted", "error"] : List String) := by
  constructor
  · have h1 : resolveOptions oneIterationOptions =
        { maxIterations := 1, pixelDiffThreshold := 92, visionThreshold := 85 } := rfl
    norm_num [recreateWebsite, runLoop, h1, range_one_one, failingScoresCollab, step,
      revisionContextFor, previousCritique, initialState, buildResult,
      failingPixelSummary, failingVisionResult]
  · decide

theorem step_preserves_stopReason_mem (c : Collaborators) (o : ResolvedOptions)
    (i : ℕ) (st : LoopState)
    (h : st.stopReason ∈ (["success", "max_iterations", "error"] : List String)) :
    (step c o i st).stopReason ∈ (["success", "max_iterations", "error"] : List String) := by
  simp only [step]
  repeat' split
  all_goals simp_all [errorStop]

/-- C6 amended: the session summary (the serialised result object) carries
`stopReason ∈ {success, max_iterations, error}` — with `"max_iterations"`
rather than the claimed `"exhausted"` as the budget-spent label — together
with the optional `errorMessage`. -/
theorem recreateWebsite_stopReason_mem (c : Collaborators)
    (po : RecreateWebsiteOptions) :
    (recreateWebsite c po).stopReason ∈
      (["success", "max_iterations", "error"] : List String) := by
  cases hcap : c.captureTarget with
  | error e => simp [recreateWebsite, hcap, buildResult, errorStop]
  | ok tp =>
    simp only [recreateWebsite, hcap, buildResult]
    have key : ∀ (l : List ℕ) (st : LoopState),
        st.stopReason ∈ (["success", "max_iterations", "error"] : List String) →
        (l.foldl (fun s i => step c (resolveOptions po) i s) st).stopReason ∈
          (["success", "max_iterations", "error"] : List String) := by
      intro l
      induction l with
      | nil => intro st h; exact h
      | cons x xs ih =>
        intro st h
        exact ih _ (step_preserves_stopReason_mem c (resolveOptions po) x st h)
    exact key _ initialState (by simp [initialState])

/-! ## Claim C5 -/

theorem get?_append_elim {α : Type} (l : List α) (x : α) (j : ℕ) (r : α)
    (h : (l ++ [x]).get? j = some r) : l.get? j = some r ∨ (j = l.length ∧ r = x) := by
  by_cases hj : j < l.length
  · left
    rw [List.get?_append hj] at h
    exact h
  · right
    have hle : l.length ≤ j := le_of_not_lt hj
    rw [List.get?_append_right hle] at h
    cases hd : j - l.length with
    | zero =>
      rw [hd] at h
      refine ⟨by omega, ?_⟩
      simpa using h.symm
    | succ m =>
      rw [hd] at h
      simp at h

theorem numbering_extend (l : List RecreationIteration) (x : RecreationIteration)
    (hl : ∀ j r, l.get? j = some r → r.iteration = j + 1)
    (hx : x.iteration = l.length + 1) :
    ∀ j r, (l ++ [x]).get? j = some r → r.iteration = j + 1 := by
  intro j r h
  rcases get?_append_elim l x j r h with h' | ⟨hj, hr⟩
  · exact hl j r h'
  · rw [hr, hx, hj]

theorem contextsD_append_iterations (its ext : List RecreationIteration)
    (ctxs : List (Option String)) (h : ContextsD its ctxs) :
    ContextsD (its ++ ext) ctxs := by
  intro k ctx hk
  obtain ⟨h0, h1⟩ := h k ctx hk
  refine ⟨h0, fun hge => ?_⟩
  obtain ⟨r, hr, hit, hsome, hctx⟩ := h1 hge
  have hlt : k - 1 < its.length := by
    rcases List.get?_eq_some.mp hr with ⟨hb, -⟩
    exact hb
  exact ⟨r, by rw [List.get?_append hlt]; exact hr, hit, hsome, hctx⟩

theorem contextsD_extend (o : ResolvedOptions) (n : ℕ) (st : LoopState)
    (hlenIt : st.iterations.length = n) (hlenCtx : st.contexts.length = n)
    (hnum : ∀ j r, st.iterations.get? j = some r → r.iteration = j + 1)
    (hcrit : ∀ j r, st.iterations.get? j = some r →
      r.critique.isSome = true ∨ r.iteration = o.maxIterations)
    (hD : ContextsD st.iterations st.contexts)
    (hn : n + 1 ≤ o.maxIterations) :
    ContextsD st.iterations (st.contexts ++ [revisionContextFor st (n + 1)]) := by
  intro k ctx hk
  rcases get?_append_elim _ _ _ _ hk with h' | ⟨hj, hr⟩
  · exact hD k ctx h'
  · subst hr
    subst hj
    rw [hlenCtx]
    by_cases hzero : n = 0
    · subst hzero
      exact ⟨fun _ => rfl, fun hge => absurd hge (by norm_num)⟩
    · have h1n : 1 ≤ n := Nat.one_le_iff_ne_zero.mpr hzero
      refine ⟨fun h0 => absurd h0 hzero, fun _ => ?_⟩
      have hidx : n - 1 < st.iterations.length := by omega
      obtain ⟨r, hr⟩ : ∃ r, st.iterations.get? (n - 1) = some r := by
        rw [List.get?_eq_get hidx]
        exact ⟨_, rfl⟩
      have hit : r.iteration = n := by
        have := hnum _ _ hr
        omega
      have hsome : r.critique.isSome = true := by
        rcases hcrit _ _ hr with h | h
        · exact h
        · rw [hit] at h
          omega
      obtain ⟨cr, hcr⟩ := Option.isSome_iff_exists.mp hsome
      have hrc : revisionContextFor st (n + 1) =
          some (formatCritiqueForRevision (some cr)) := by
        unfold revisionContextFor previousCritique
        rw [if_pos (by omega : 2 ≤ n + 1), show n + 1 - 2 = n - 1 by omega, hr]
        simp [hcr]
      exact ⟨r, hr, hit, hsome, by rw [hrc, hcr]; rfl⟩

theorem loopInv_step (c : Collaborators) (o : ResolvedOptions) (n : ℕ)
    (st : LoopState) (hn : n + 1 ≤ o.maxIterations) (hInv : LoopInv o n st) :
    LoopInv o (n + 1) (step c o (n + 1) st) := by
  obtain ⟨hnum, hlen, hcrit, hD⟩ := hInv
  by_cases hstop : st.stopped = true
  · rw [step_of_stopped c o _ st hstop]
    refine ⟨hnum, fun hf => ?_, fun hf => ?_, hD⟩ <;> (rw [hf] at hstop; cases hstop)
  · have hstop' : st.stopped = false := by
      revert hstop
      cases st.stopped <;> simp
    obtain ⟨hlenIt, hlenCtx⟩ := hlen hstop'
    have hD' : ContextsD st.iterations
        (st.contexts ++ [revisionContextFor st (n + 1)]) :=
      contextsD_extend o n st hlenIt hlenCtx hnum (hcrit hstop') hD hn
    have hnum1 : ∀ x : RecreationIteration, x.iteration = n + 1 →
        ∀ j r, (st.iterations ++ [x]).get? j = some r → r.iteration = j + 1 :=
      fun x hx => numbering_extend _ _ hnum (by rw [hx, hlenIt])
    have hDext : ∀ ext, ContextsD (st.iterations ++ ext)
        (st.contexts ++ [revisionContextFor st (n + 1)]) :=
      fun ext => contextsD_append_iterations _ ext _ hD'
    simp only [step, hstop', Bool.false_eq_true, if_false]
    split
    · exact ⟨hnum, fun hf => by simp [errorStop] at hf,
        fun hf => by simp [errorStop] at hf, hD'⟩
    · by_cases hK1 : n + 1 = o.maxIterations
      · rw [if_pos hK1]
        split
        · exact ⟨hnum, fun hf => by simp [errorStop] at hf,
            fun hf => by simp [errorStop] at hf, hD'⟩
        next sp hshot =>
          split
          · exact ⟨hnum, fun hf => by simp [errorStop] at hf,
              fun hf => by simp [errorStop] at hf, hD'⟩
          next pdr hpd =>
            split
            · exact ⟨hnum, fun hf => by simp [errorStop] at hf,
                fun hf => by simp [errorStop] at hf, hD'⟩
            next vrr hvr =>
              by_cases hbp : (decide (pdr.score ≥ o.pixelDiffThreshold) &&
                  decide (vrr.score ≥ o.visionThreshold)) = true
              · rw [if_pos hbp]
                exact ⟨hnum1 _ rfl, fun hf => by simp at hf,
                  fun hf => by simp at hf, hDext _⟩
              · rw [if_neg hbp]
                by_cases hik : n + 1 < o.maxIterations
                · rw [if_pos hik]
                  split
                  · exact ⟨hnum, fun hf => by simp [errorStop] at hf,
                      fun hf => by simp [errorStop] at hf, hD'⟩
                  · refine ⟨hnum1 _ rfl, fun _ => ?_, fun _ => ?_, hDext _⟩
                    · constructor <;> simp [List.length_append, hlenIt, hlenCtx]
                    · intro j r h
                      rcases get?_append_elim _ _ _ _ h with h' | ⟨hj, hr⟩
                      · exact hcrit hstop' j r h'
                      · left
                        rw [hr]
                        rfl
                · rw [if_neg hik]
                  refine ⟨hnum1 _ rfl, fun _ => ?_, fun _ => ?_, hDext _⟩
                  · constructor <;> simp [List.length_append, hlenIt, hlenCtx]
                  · intro j r h
                    rcases get?_append_elim _ _ _ _ h with h' | ⟨hj, hr⟩
                    · exact hcrit hstop' j r h'
                    · right
                      rw [hr]
                      show n + 1 = o.maxIterations
                      omega
      · rw [if_neg hK1]
        split
        · exact ⟨hnum, fun hf => by simp [errorStop] at hf,
            fun hf => by simp [errorStop] at hf, hD'⟩
        next sp hshot =>
          split
          · exact ⟨hnum, fun hf => by simp [errorStop] at hf,
              fun hf => by simp [errorStop] at hf, hD'⟩
          next pdr hpd =>
            split
            · exact ⟨hnum, fun hf => by simp [errorStop] at hf,
                fun hf => by simp [errorStop] at hf, hD'⟩
            next vrr hvr =>
              by_cases hbp : (decide (pdr.score ≥ o.pixelDiffThreshold) &&
                  decide (vrr.score ≥ o.visionThreshold)) = true
              · rw [if_pos hbp]
                exact ⟨hnum1 _ rfl, fun hf => by simp at hf,
                  fun hf => by simp at hf, hDext _⟩
              · rw [if_neg hbp]
                by_cases hik : n + 1 < o.maxIterations
                · rw [if_pos hik]
                  split
                  · exact ⟨hnum, fun hf => by simp [errorStop] at hf,
                      fun hf => by simp [errorStop] at hf, hD'⟩
                  · refine ⟨hnum1 _ rfl, fun _ => ?_, fun _ => ?_, hDext _⟩
                    · constructor <;> simp [List.length_append, hlenIt, hlenCtx]
                    · intro j r h
                      rcases get?_append_elim _ _ _ _ h with h' | ⟨hj, hr⟩
                      · exact hcrit hstop' j r h'
                      · left
                        rw [hr]
                        rfl
                · rw [if_neg hik]
                  refine ⟨hnum1 _ rfl, fun _ => ?_, fun _ => ?_, hDext _⟩
                  · constructor <;> simp [List.length_append, hlenIt, hlenCtx]
                  · intro j r h
                    rcases get?_append_elim _ _ _ _ h with h' | ⟨hj, hr⟩
                    · exact hcrit hstop' j r h'
                    · right
                      rw [hr]
                      show n + 1 = o.maxIterations
                      omega

theorem loopInv_foldl (c : Collaborators) (o : ResolvedOptions) :
    ∀ n, n ≤ o.maxIterations →
    LoopInv o n ((List.range' 1 n).foldl (fun s i => step c o i s) initialState) := by
  intro n
  induction n with
  | zero =>
    intro _
    exact ⟨fun j r h => by simp [initialState] at h, fun _ => ⟨rfl, rfl⟩,
      fun _ j r h => by simp [initialState] at h,
      fun k ctx h => by simp [initialState] at h⟩
  | succ m ih =>
    intro h
    rw [List.range'_concat 1 m, List.foldl_append]
    simp only [List.foldl_cons, List.foldl_nil]
    rw [show 1 + 1 * m = m + 1 by omega]
    exact loopInv_step c o m _ h (ih (by omega))

/-- C5: in every session, iteration 1's generation call receives no
revision context; and whenever a revision context was recorded for
iteration `N ≥ 2`, it is derived solely from the critique recorded on the
iteration-`N−1` record — which is necessarily present, because a failed
critique call aborts the session before iteration `N` can start (so the
claim's "absent critique ⇒ fixed no-issues sentence" case never arises;
a present critique with zero issues does produce the fixed sentence via
`formatCritiqueForRevision`). -/
theorem revision_context_chaining (c : Collaborators) (po : RecreateWebsiteOptions) :
    (∀ ctx, (runLoop c (resolveOptions po)).contexts.get? 0 = some ctx → ctx = none) ∧
    (∀ N ctx, 2 ≤ N →
      (runLoop c (resolveOptions po)).contexts.get? (N - 1) = some ctx →
      ∃ r, (runLoop c (resolveOptions po)).iterations.get? (N - 2) = some r ∧
        r.iteration = N - 1 ∧ r.critique.isSome = true ∧
        ctx = r.critique.map (fun cr => formatCritiqueForRevision (some cr))) := by
  have h : LoopInv (resolveOptions po) (resolveOptions po).maxIterations
      (runLoop c (resolveOptions po)) :=
    loopInv_foldl c (resolveOptions po) (resolveOptions po).maxIterations le_rfl
  obtain ⟨-, -, -, hD⟩ := h
  constructor
  · intro ctx h0
    exact (hD 0 ctx h0).1 rfl
  · intro N ctx hN hctx
    have h2 := (hD (N - 1) ctx hctx).2 (by omega)
    rw [show N - 1 - 1 = N - 2 by omega] at h2
    obtain ⟨r, hr, hit, hsome, hctx'⟩ := h2
    exact ⟨r, hr, by omega, hsome, hctx'⟩

/-- Witness for C5: in a concrete 2-iteration failing run, iteration 2's
recorded context is derived from iteration 1's recorded critique. -/
theorem revision_context_chaining_witness :
    ∃ r, (runLoop failingScoresCollab (resolveOptions twoIterationOptions)).iterations.get?
        (2 - 2) = some r ∧ r.iteration = 2 - 1 ∧ r.critique.isSome = true ∧
      some (formatCritiqueForRevision (some sampleCritique)) =
        r.critique.map (fun cr => formatCritiqueForRevision (some cr)) :=
  (revision_context_chaining failingScoresCollab twoIterationOptions).2 2
    (some (formatCritiqueForRevision (some sampleCritique))) (by norm_num)
    (by
      have h2 : resolveOptions twoIterationOptions =
          { maxIterations := 2, pixelDiffThreshold := 92, visionThreshold := 85 } := rfl
      norm_num [runLoop, h2, range_one_two, failingScoresCollab, step,
        revisionContextFor, previousCritique, initialState, failingPixelSummary,
        failingVisionResult, List.get?])

end CliAiToolkit
